import Mathlib

/-!
Verification of the WareHouseSystem front-end's authentication and
warehouse-page logic, as shallowly embedded from the TypeScript source:

* `localStorage` is modelled as an association list from keys to values
  (`Store`), with `setItem`/`getItem` matching the browser API.
* `LoginComponent.onSubmit` (login.component.ts) is modelled as a pure
  function from the form state, the current storage and the backend's
  behaviour to the resulting storage, navigation and network activity.
* `AuthServiceService.login` (auth-service.service.ts) is modelled as the
  HTTP POST request it constructs.
* `WarehouseService.getAll` (warehouse.service.ts) is modelled as the GET
  request it constructs, sent through the interceptor chain registered in
  `app.module.ts` (which is empty: `providers: []`).
* `WarehouseComponent` (warehouse.component.ts) pagination and filtering
  are modelled as pure functions on the component state.
* The Token Store / session-state machine that the specification designs
  but the source does not contain is modelled from the specification where
  a claim needs it; those definitions say so in their doc comments.
-/

/-! ## Browser local storage -/

/-- The browser `localStorage`: an association list of string keys to
string values; the most recent write for a key shadows older entries. -/
abbrev Store : Type := List (String × String)

/-- Model of `localStorage.setItem(k, v)`: overwrites any value stored
under `k`. -/
def setItem (s : Store) (k v : String) : Store :=
  (k, v) :: List.filter (fun kv => kv.1 != k) s

/-- Model of `localStorage.getItem(k)`: the last value stored under `k`,
if any. -/
def getItem (s : Store) (k : String) : Option String :=
  (List.find? (fun kv => kv.1 == k) s).map (fun kv => kv.2)

theorem getItem_setItem_same (s : Store) (k v : String) :
    getItem (setItem s k v) k = some v := by
  simp [getItem, setItem]

theorem find?_filter_ne (s : Store) (k k' : String) (h : k ≠ k') :
    List.find? (fun kv => kv.1 == k') (List.filter (fun kv => kv.1 != k) s)
      = List.find? (fun kv => kv.1 == k') s := by
  induction s with
  | nil => rfl
  | cons hd tl ih =>
    by_cases hk : hd.1 = k
    · have h1 : (hd.1 != k) = false := by simp [hk]
      have h2 : (hd.1 == k') = false := by
        simp [hk]
        exact h
      simp [List.filter, List.find?, h1, h2, ih]
    · have h1 : (hd.1 != k) = true := by simp [hk]
      by_cases hk' : hd.1 = k'
      · have h2 : (hd.1 == k') = true := by simp [hk']
        simp [List.filter, List.find?, h1, h2]
      · have h2 : (hd.1 == k') = false := by simp [hk']
        simp [List.filter, List.find?, h1, h2, ih]

theorem getItem_setItem_ne (s : Store) (k k' v : String) (h : k ≠ k') :
    getItem (setItem s k v) k' = getItem s k' := by
  have hkk : (k == k') = false := by simp [h]
  simp [getItem, setItem, List.find?, hkk, find?_filter_ne s k k' h]

/-! ## DTOs (src/app/dto) -/

/-- `LoginRequest` interface: the body of the login POST. -/
structure LoginRequest where
  username : String
  password : String
deriving DecidableEq, Repr

/-- `AuthResponse` interface: the parsed body of a successful login
response (`{access_token, refresh_token, expire_access_token,
expire_refresh_token, ip}`). -/
structure AuthResponse where
  access_token : String
  refresh_token : String
  expire_access_token : String
  expire_refresh_token : String
  ip : String
deriving DecidableEq, Repr

/-! ## LoginComponent (login.component.ts) -/

/-- The reactive form value: one control per `fb.group` entry in
`ngOnInit`. -/
structure LoginForm where
  username : String
  password : String
deriving DecidableEq, Repr

/-- Angular `Validators.required`: errors exactly on the empty string. -/
def requiredError (v : String) : Bool := v == ""

/-- Angular `Validators.minLength(n)`: errors on a non-empty value shorter
than `n` (empty values are left to `required`). -/
def minLengthError (n : Nat) (v : String) : Bool :=
  v != "" && v.length < n

/-- `loginForm.invalid`: the disjunction of the control errors declared in
`ngOnInit` (username required; password required and minLength 6). -/
def loginFormInvalid (f : LoginForm) : Bool :=
  requiredError f.username || requiredError f.password ||
    minLengthError 6 f.password

/-- The backend's answer to the login call, as `subscribe` sees it:
`next` with a parsed `AuthResponse`, or `error` with a status and an
optional `error.message`. -/
inductive LoginOutcome where
  | success (response : AuthResponse)
  | failure (status : Nat) (message : Option String)
deriving DecidableEq, Repr

/-- The externally observable effects of one `onSubmit` run. -/
structure SubmitResult where
  store : Store
  navigatedTo : Option (List String)
  networkCall : Option LoginRequest
  errorMessage : String
  isLoading : Bool
deriving DecidableEq

/-- `LoginComponent.onSubmit`, as a function of the form value, the
current `localStorage` contents and the backend's behaviour. The invalid
branch returns before any network activity; the `next` branch stores both
tokens and navigates to `/dashboard`; the `error` branch records a message
and leaves storage untouched. -/
def onSubmit (f : LoginForm) (store : Store)
    (backend : LoginRequest → LoginOutcome) : SubmitResult :=
  if loginFormInvalid f then
    { store := store, navigatedTo := none, networkCall := none,
      errorMessage := "", isLoading := false }
  else
    let req : LoginRequest := { username := f.username, password := f.password }
    match backend req with
    | .success r =>
      { store := setItem (setItem store "access_token" r.access_token)
          "refresh_token" r.refresh_token,
        navigatedTo := some ["/dashboard"], networkCall := some req,
        errorMessage := "", isLoading := false }
    | .failure _ _ =>
      { store := store, navigatedTo := none, networkCall := some req,
        errorMessage := "Tên đăng nhập hoặc mật khẩu không đúng",
        isLoading := false }

/-- The session is considered authenticated when an access token is in
storage (this is how the source derives session state: the login handler
writes the token, and the documented session restore reads it back). -/
def isAuthenticated (s : Store) : Bool :=
  (getItem s "access_token").isSome

/-- Scenario-1 form value from the specification. -/
def aliceForm : LoginForm := { username := "alice", password := "secret1" }

/-- A concrete token payload used to exercise the success branch. -/
def demoAuthResponse : AuthResponse :=
  { access_token := "A", refresh_token := "R", expire_access_token := "ea",
    expire_refresh_token := "er", ip := "127.0.0.1" }

/-- A backend that answers every login with 200 and `demoAuthResponse`. -/
def demoBackendOk : LoginRequest → LoginOutcome :=
  fun _ => .success demoAuthResponse

/-- A backend that rejects every login with 401 Invalid credentials. -/
def demoBackend401 : LoginRequest → LoginOutcome :=
  fun _ => .failure 401 (some "Invalid credentials")

/-- C2: a login answered with 200 and a token payload stores the returned
tokens under the keys access_token and refresh_token and navigates to the
authenticated landing page `/dashboard`; the session is then
authenticated. -/
theorem onSubmit_success_stores_tokens_and_navigates
    (f : LoginForm) (store : Store) (backend : LoginRequest → LoginOutcome)
    (r : AuthResponse)
    (hv : loginFormInvalid f = false)
    (hb : backend { username := f.username, password := f.password }
            = .success r) :
    getItem (onSubmit f store backend).store "access_token"
        = some r.access_token ∧
    getItem (onSubmit f store backend).store "refresh_token"
        = some r.refresh_token ∧
    (onSubmit f store backend).navigatedTo = some ["/dashboard"] ∧
    isAuthenticated (onSubmit f store backend).store = true := by
  have hne : ("refresh_token" : String) ≠ "access_token" := by decide
  have he : onSubmit f store backend =
      { store := setItem (setItem store "access_token" r.access_token)
          "refresh_token" r.refresh_token,
        navigatedTo := some ["/dashboard"],
        networkCall := some { username := f.username, password := f.password },
        errorMessage := "", isLoading := false } := by
    simp [onSubmit, hv, hb]
  rw [he]
  refine ⟨?_, ?_, rfl, ?_⟩
  · rw [getItem_setItem_ne _ _ _ _ hne, getItem_setItem_same]
  · rw [getItem_setItem_same]
  · simp [isAuthenticated, getItem_setItem_ne _ _ _ _ hne,
      getItem_setItem_same]

/-- Witness for C2: the spec's scenario 1 (alice / secret1, backend
returns 200 with a token payload). -/
theorem onSubmit_success_stores_tokens_and_navigates_witness :
    getItem (onSubmit aliceForm [] demoBackendOk).store "access_token"
        = some demoAuthResponse.access_token ∧
    getItem (onSubmit aliceForm [] demoBackendOk).store "refresh_token"
        = some demoAuthResponse.refresh_token ∧
    (onSubmit aliceForm [] demoBackendOk).navigatedTo
        = some ["/dashboard"] ∧
    isAuthenticated (onSubmit aliceForm [] demoBackendOk).store = true :=
  onSubmit_success_stores_tokens_and_navigates aliceForm [] demoBackendOk
    demoAuthResponse (by decide) rfl

/-- C3: a login the backend rejects writes no token: the storage after the
call is exactly the storage before it, nothing is navigated, and the
derived session state is unchanged. -/
theorem onSubmit_failure_leaves_state
    (f : LoginForm) (store : Store) (backend : LoginRequest → LoginOutcome)
    (status : Nat) (msg : Option String)
    (hv : loginFormInvalid f = false)
    (hb : backend { username := f.username, password := f.password }
            = .failure status msg) :
    (onSubmit f store backend).store = store ∧
    (onSubmit f store backend).navigatedTo = none ∧
    isAuthenticated (onSubmit f store backend).store
      = isAuthenticated store := by
  simp [onSubmit, hv, hb]

/-- Witness for C3: the spec's scenario 2 (wrong password, backend answers
401 Invalid credentials) starting from empty storage. -/
theorem onSubmit_failure_leaves_state_witness :
    (onSubmit aliceForm [] demoBackend401).store = [] ∧
    (onSubmit aliceForm [] demoBackend401).navigatedTo = none ∧
    isAuthenticated (onSubmit aliceForm [] demoBackend401).store
      = isAuthenticated [] :=
  onSubmit_failure_leaves_state aliceForm [] demoBackend401
    401 (some "Invalid credentials") (by decide) rfl

/-- C4: with malformed credentials (empty username, or password shorter
than six characters) `onSubmit` performs no network call at all and leaves
storage and navigation untouched. -/
theorem onSubmit_invalid_no_network
    (f : LoginForm) (store : Store) (backend : LoginRequest → LoginOutcome)
    (h : f.username = "" ∨ f.password.length < 6) :
    (onSubmit f store backend).networkCall = none ∧
    (onSubmit f store backend).store = store ∧
    (onSubmit f store backend).navigatedTo = none := by
  have hinv : loginFormInvalid f = true := by
    rcases h with h | h
    · simp [loginFormInvalid, requiredError, h]
    · by_cases hp : f.password = ""
      · simp [loginFormInvalid, requiredError, hp]
      · simp [loginFormInvalid, minLengthError, requiredError, hp, h]
  simp [onSubmit, hinv]

/-- Witness for C4: a five-character password is rejected locally; no
request is sent. -/
theorem onSubmit_invalid_no_network_witness :
    (("alice" : String) = "" ∨ ("12345" : String).length < 6) ∧
    (onSubmit { username := "alice", password := "12345" } []
        demoBackendOk).networkCall = none ∧
    (onSubmit { username := "alice", password := "12345" } []
        demoBackendOk).store = [] ∧
    (onSubmit { username := "alice", password := "12345" } []
        demoBackendOk).navigatedTo = none :=
  ⟨Or.inr (by decide),
    onSubmit_invalid_no_network _ _ _ (Or.inr (by decide))⟩

/-! ## AuthServiceService (auth-service.service.ts) -/

/-- The service's `apiUrl` field: a string literal in the source. -/
def authApiUrl : String := "http://localhost:8080/api/v1/auth"

/-- An HTTP POST request carrying a login body. -/
structure PostRequest where
  method : String
  url : String
  body : LoginRequest
deriving DecidableEq, Repr

/-- `AuthServiceService.login(request)`: `http.post(apiUrl + "/login",
request)`, whose response is parsed as `AuthResponse`. -/
def login (request : LoginRequest) : PostRequest :=
  { method := "POST", url := authApiUrl ++ "/login", body := request }

/-- C6: the login operation issues a POST to `/api/v1/auth/login` on the
service's configured host, with exactly the submitted username and
password as the body. -/
theorem login_posts_to_login_endpoint (request : LoginRequest) :
    (login request).method = "POST" ∧
    (login request).url = "http://localhost:8080" ++ "/api/v1/auth/login" ∧
    (login request).body.username = request.username ∧
    (login request).body.password = request.password := by
  refine ⟨rfl, rfl, rfl, rfl⟩

/-! ## WarehouseService.getAll and the interceptor chain -/

/-- An HTTP GET request as the Angular `HttpClient` sends it: URL, query
parameters and headers. -/
structure GetRequest where
  url : String
  params : List (String × String)
  headers : List (String × String)
deriving DecidableEq, Repr

/-- An HTTP interceptor: may rewrite an outgoing request, possibly reading
the stored tokens. -/
abbrev Interceptor : Type := Store → GetRequest → GetRequest

/-- The `providers` array of `app.module.ts`: it is literally empty, so no
HTTP interceptor is registered anywhere in the application. -/
def appModuleProviders : List Interceptor := []

/-- `WarehouseService.getAll(page, size)`: a GET to `BaseURL.API_URL +
"warehouse"` with `page` and `size` query parameters and no headers of its
own. -/
def getAllRequest (base : String) (page size : Int) : GetRequest :=
  { url := base ++ "warehouse",
    params := [("page", toString page), ("size", toString size)],
    headers := [] }

/-- The request actually sent on the wire: the caller's request after
every registered interceptor has run, in registration order. -/
def sendThroughProviders (store : Store) (r : GetRequest) : GetRequest :=
  List.foldl (fun req i => i store req) r appModuleProviders

/-- Reads a header value from a request. -/
def headerValue (r : GetRequest) (name : String) : Option String :=
  (List.find? (fun h => h.1 == name) r.headers).map (fun h => h.2)

/-- C1 (code bug): even with an access token in storage, the warehouse
list request issued by `WarehouseService.getAll` goes out with no
Authorization header at all, because `app.module.ts` registers no
interceptor (`providers: []`); the repository's own flow documentation
says a JwtInterceptor attaches `Authorization: Bearer` to every request,
but no such interceptor exists in the code. -/
theorem getAll_sends_no_authorization_header :
    getItem [("access_token", "tok")] "access_token" = some "tok" ∧
    isAuthenticated [("access_token", "tok")] = true ∧
    headerValue
      (sendThroughProviders [("access_token", "tok")]
        (getAllRequest "http://localhost:8080/api/v1/" 0 10))
      "Authorization" = none := by
  refine ⟨rfl, rfl, rfl⟩

/-! ## TokenPair persistence (C5) -/

/-- The specification's `TokenPair`: both tokens and both expiries. -/
structure TokenPair where
  accessToken : String
  refreshToken : String
  accessExpiry : String
  refreshExpiry : String
deriving DecidableEq, Repr

/-- Saving a `TokenPair`, exactly as the source persists credentials
(login.component.ts lines 66-67): only the two token strings are written,
under the keys `access_token` and `refresh_token`; the expiries are
dropped. -/
def savePair (s : Store) (p : TokenPair) : Store :=
  setItem (setItem s "access_token" p.accessToken)
    "refresh_token" p.refreshToken

/-- Loading the persisted credential data: the two string values stored
under the well-known keys, when both are present. -/
def loadTokens (s : Store) : Option (String × String) :=
  match getItem s "access_token", getItem s "refresh_token" with
  | some a, some r => some (a, r)
  | _, _ => none

/-- A concrete pair whose expiries are dropped by `savePair`. -/
def cPair1 : TokenPair :=
  { accessToken := "a", refreshToken := "r", accessExpiry := "100",
    refreshExpiry := "200" }

/-- Like `cPair1` but with a different access expiry. -/
def cPair2 : TokenPair :=
  { accessToken := "a", refreshToken := "r", accessExpiry := "999",
    refreshExpiry := "200" }

/-- C5 (counterexample): two token pairs that differ only in their access
expiry are persisted to the very same storage, so no load operation can
return all four fields intact: the four-field round-trip fails. -/
theorem tokenPair_roundtrip_fails :
    savePair [] cPair1 = savePair [] cPair2 ∧
    cPair1 ≠ cPair2 ∧
    ¬ ∃ load : Store → Option TokenPair,
        ∀ p : TokenPair, load (savePair [] p) = some p := by
  refine ⟨rfl, by decide, ?_⟩
  rintro ⟨load, hload⟩
  have h1 := hload cPair1
  have h2 := hload cPair2
  have hsame : savePair [] cPair1 = savePair [] cPair2 := rfl
  rw [hsame, h2] at h1
  have : cPair2 = cPair1 := Option.some.inj h1
  exact absurd this (by decide)

/-- C5 (amended): the persisted part of a pair round-trips: after saving,
loading returns exactly the pair's access token and refresh token (the
expiries are not persisted; only the two string values are stored). -/
theorem tokenPair_tokens_roundtrip (s : Store) (p : TokenPair) :
    loadTokens (savePair s p) = some (p.accessToken, p.refreshToken) := by
  have hne : ("refresh_token" : String) ≠ "access_token" := by decide
  simp [loadTokens, savePair, getItem_setItem_same,
    getItem_setItem_ne _ _ _ _ hne]

/-! ## WarehouseComponent pagination (warehouse.component.ts) -/

/-- The pagination fields of `WarehouseComponent` (TypeScript numbers,
modelled as integers). -/
structure PageState where
  currentPage : Int
  totalPages : Int
deriving DecidableEq, Repr

/-- `nextPage()`: advance only while strictly before the last page. -/
def nextPage (s : PageState) : PageState :=
  if s.currentPage < s.totalPages - 1 then
    { s with currentPage := s.currentPage + 1 }
  else s

/-- `previousPage()`: go back only while strictly after the first page. -/
def previousPage (s : PageState) : PageState :=
  if s.currentPage > 0 then
    { s with currentPage := s.currentPage - 1 }
  else s

/-- A user action on the pagination widget. -/
inductive PageOp where
  | next
  | prev
deriving DecidableEq, Repr

/-- One pagination click. -/
def applyPageOp (s : PageState) (op : PageOp) : PageState :=
  match op with
  | .next => nextPage s
  | .prev => previousPage s

/-- A whole sequence of pagination clicks, left to right. -/
def applyPageOps (s : PageState) (ops : List PageOp) : PageState :=
  List.foldl applyPageOp s ops

/-- The invariant the pagination clicks preserve: the page count is the
fixed `tp` and the current page stays within bounds. -/
def pageInv (tp : Int) (s : PageState) : Prop :=
  s.totalPages = tp ∧ 0 ≤ s.currentPage ∧ s.currentPage ≤ tp - 1

theorem applyPageOp_inv (tp : Int) (s : PageState) (op : PageOp)
    (h : pageInv tp s) : pageInv tp (applyPageOp s op) := by
  obtain ⟨ht, h0, h1⟩ := h
  cases op with
  | next =>
    show pageInv tp (nextPage s)
    unfold nextPage
    by_cases hlt : s.currentPage < s.totalPages - 1
    · rw [if_pos hlt]
      refine ⟨ht, ?_, ?_⟩
      · show 0 ≤ s.currentPage + 1
        omega
      · show s.currentPage + 1 ≤ tp - 1
        omega
    · rw [if_neg hlt]
      exact ⟨ht, h0, h1⟩
  | prev =>
    show pageInv tp (previousPage s)
    unfold previousPage
    by_cases hgt : s.currentPage > 0
    · rw [if_pos hgt]
      refine ⟨ht, ?_, ?_⟩
      · show 0 ≤ s.currentPage - 1
        omega
      · show s.currentPage - 1 ≤ tp - 1
        omega
    · rw [if_neg hgt]
      exact ⟨ht, h0, h1⟩

theorem applyPageOps_inv (tp : Int) (ops : List PageOp) (s : PageState)
    (h : pageInv tp s) : pageInv tp (applyPageOps s ops) := by
  induction ops generalizing s with
  | nil => exact h
  | cons op rest ih => exact ih (applyPageOp s op) (applyPageOp_inv tp s op h)

/-- C9: starting from page 0, any sequence of nextPage/previousPage clicks
keeps the current page between 0 and totalPages - 1 whenever there is at
least one page; nextPage is a no-op on the last page and previousPage on
the first. -/
theorem pagination_stays_in_bounds (ops : List PageOp) (tp : Int)
    (h : 1 ≤ tp) :
    0 ≤ (applyPageOps { currentPage := 0, totalPages := tp } ops).currentPage ∧
    (applyPageOps { currentPage := 0, totalPages := tp } ops).currentPage
      ≤ (applyPageOps { currentPage := 0, totalPages := tp } ops).totalPages
          - 1 := by
  have hinv : pageInv tp (applyPageOps { currentPage := 0, totalPages := tp } ops) :=
    applyPageOps_inv tp ops _ ⟨rfl, le_refl 0, show (0 : Int) ≤ tp - 1 by omega⟩
  obtain ⟨ht, h0, h1⟩ := hinv
  refine ⟨h0, ?_⟩
  rw [ht]
  exact h1

/-- Witness for C9: three pages, clicking next, next, next, prev stays in
bounds. -/
theorem pagination_stays_in_bounds_witness :
    (1 : Int) ≤ 3 ∧
    (0 ≤ (applyPageOps { currentPage := 0, totalPages := 3 }
        [PageOp.next, PageOp.next, PageOp.next, PageOp.prev]).currentPage ∧
    (applyPageOps { currentPage := 0, totalPages := 3 }
        [PageOp.next, PageOp.next, PageOp.next, PageOp.prev]).currentPage
      ≤ (applyPageOps { currentPage := 0, totalPages := 3 }
        [PageOp.next, PageOp.next, PageOp.next, PageOp.prev]).totalPages
          - 1) :=
  ⟨by decide,
    pagination_stays_in_bounds [PageOp.next, PageOp.next, PageOp.next,
      PageOp.prev] 3 (by decide)⟩

/-! ## WarehouseComponent filtering (warehouse.component.ts) -/

/-- `WareHouseResponse` DTO: the fields the filter reads. -/
structure WareHouseResponse where
  name : String
  code : String
  address : String
  status : String
  ware_house_type : String
deriving DecidableEq, Repr

/-- The component state that `getFilteredWarehouses` reads. -/
structure FilterState where
  wareHouses : List WareHouseResponse
  searchTerm : String
  selectedStatus : String
  selectedType : String
deriving DecidableEq, Repr

/-- JavaScript `toLowerCase()`. -/
def lowercase (s : String) : String := s.map Char.toLower

/-- Whether the first list is an initial segment of the second. -/
def leadMatch : List Char → List Char → Bool
  | [], _ => true
  | _ :: _, [] => false
  | a :: n, b :: h => a == b && leadMatch n h

/-- Whether the first list occurs contiguously inside the second. -/
def subMatch : List Char → List Char → Bool
  | n, [] => leadMatch n []
  | n, b :: t => leadMatch n (b :: t) || subMatch n t

/-- JavaScript `hay.includes(needle)` on strings. -/
def strIncludes (hay needle : String) : Bool :=
  subMatch needle.data hay.data

/-- The predicate inside `getFilteredWarehouses`: a warehouse matches when
each of the three filters is either empty (JS falsy) or satisfied. -/
def matchesFilters (st : FilterState) (w : WareHouseResponse) : Bool :=
  let matchesSearch :=
    st.searchTerm == "" ||
      strIncludes (lowercase w.name) (lowercase st.searchTerm) ||
      strIncludes (lowercase w.code) (lowercase st.searchTerm) ||
      strIncludes (lowercase w.address) (lowercase st.searchTerm)
  let matchesStatus :=
    st.selectedStatus == "" || w.status == st.selectedStatus
  let matchesType :=
    st.selectedType == "" || w.ware_house_type == st.selectedType
  matchesSearch && matchesStatus && matchesType

/-- `WarehouseComponent.getFilteredWarehouses()`: a pure filter over the
loaded list; the component state is not modified. -/
def getFilteredWarehouses (st : FilterState) : List WareHouseResponse :=
  List.filter (matchesFilters st) st.wareHouses

/-- C10: the filtered list is a sublist of the loaded warehouses (same
elements, same relative order, state untouched), and with all three
filters empty it is the entire loaded list unchanged. -/
theorem getFilteredWarehouses_sublist_and_identity (st : FilterState) :
    List.Sublist (getFilteredWarehouses st) st.wareHouses ∧
    (st.searchTerm = "" ∧ st.selectedStatus = "" ∧ st.selectedType = "" →
      getFilteredWarehouses st = st.wareHouses) := by
  constructor
  · exact List.filter_sublist st.wareHouses
  · rintro ⟨h1, h2, h3⟩
    simp [getFilteredWarehouses, matchesFilters, h1, h2, h3]

/-- A concrete component state with two warehouses and empty filters. -/
def demoFilterState : FilterState :=
  { wareHouses :=
      [{ name := "Kho A", code := "WH1", address := "Hanoi",
         status := "ACTIVE", ware_house_type := "MAIN" },
       { name := "Kho B", code := "WH2", address := "Hue",
         status := "INACTIVE", ware_house_type := "TRANSIT" }],
    searchTerm := "", selectedStatus := "", selectedType := "" }

/-- Witness for C10: on a concrete state with empty filters the result is
a sublist and in fact the whole list. -/
theorem getFilteredWarehouses_sublist_and_identity_witness :
    List.Sublist (getFilteredWarehouses demoFilterState)
      demoFilterState.wareHouses ∧
    getFilteredWarehouses demoFilterState = demoFilterState.wareHouses :=
  ⟨(getFilteredWarehouses_sublist_and_identity demoFilterState).1,
    (getFilteredWarehouses_sublist_and_identity demoFilterState).2
      ⟨rfl, rfl, rfl⟩⟩

/-! ## Spec-modelled session state machine (C7, C8)

The source under src/ contains no Token Store service, no logout and no
refresh/retry interceptor (app.module.ts registers no providers and the
specification itself notes the refresh policy is a design to build).
The definitions below are therefore modelled from the specification. -/

/-- `UserInfo` as the specification's data model gives it. -/
structure UserInfo where
  id : String
  username : String
  email : String
  fullName : String
deriving DecidableEq, Repr

/-- `SessionState` as the specification's data model gives it. -/
structure SessionState where
  isAuthenticated : Bool
  user : Option UserInfo
  roles : List String
deriving DecidableEq, Repr

/-- The client-side authentication state: the Token Store's contents and
the published session state. -/
structure AuthState where
  tokens : Option TokenPair
  session : SessionState
deriving DecidableEq, Repr

/-- Modelled from the spec: `Token Store.load()` (spec 4.1) — returns the
last saved pair, or null. The Token Store service is absent from src/. -/
def storeLoad (t : Option TokenPair) : Option TokenPair := t

/-- Modelled from the spec: `Token Store.clear()` (spec 4.1) — removes all
stored credential data. The Token Store service is absent from src/. -/
def storeClear (_ : Option TokenPair) : Option TokenPair := none

/-- Modelled from the spec: `setUnauthenticated()` (spec 4.2) — instructs
Token Store.clear, then emits SessionState with isAuthenticated false, no
user and no roles. The Auth State Publisher is absent from src/. -/
def setUnauthenticated (s : AuthState) : AuthState :=
  { tokens := storeClear s.tokens,
    session := { isAuthenticated := false, user := none, roles := [] } }

/-- Modelled from the spec: `logout()` (spec 4.3) — invokes
setUnauthenticated; no network round trip. Absent from src/. -/
def logout (s : AuthState) : AuthState := setUnauthenticated s

/-- C8: logout is idempotent — two logouts in a row end in exactly the
state one logout ends in — and after logout the Token Store loads null and
the session is unauthenticated. -/
theorem logout_idempotent (s : AuthState) :
    logout (logout s) = logout s ∧
    storeLoad (logout s).tokens = none ∧
    (logout s).session.isAuthenticated = false := by
  refine ⟨rfl, rfl, rfl⟩

/-- What one protected API call can come back with. -/
inductive ApiResult where
  | ok (body : String)
  | authFailure (message : String)
  | otherError (status : Nat) (message : String)
deriving DecidableEq, Repr

/-- The environment one refresh-and-retry cycle runs against: how the
refresh call would go, and how the retried original request would go. -/
structure RetryEnv where
  refreshOutcome : Except String TokenPair
  retryOutcome : ApiResult
deriving Repr

/-- The observable trace of handling one original response. -/
structure AuthorizerTrace where
  refreshAttempts : Nat
  retryAttempts : Nat
  unauthTransitions : Nat
  surfaced : ApiResult
deriving DecidableEq, Repr

/-- Modelled from the spec: the Request Authorizer's response policy
(spec 4.4) — on an authorization failure, attempt exactly one refresh;
if it succeeds retry the original request once and surface the retry's
result; if it fails call setUnauthenticated once and surface the
original failure. Any other result passes through untouched. No such
interceptor exists under src/. -/
def handleResponse (first : ApiResult) (env : RetryEnv) : AuthorizerTrace :=
  match first with
  | .authFailure msg =>
    match env.refreshOutcome with
    | .ok _ =>
      { refreshAttempts := 1, retryAttempts := 1, unauthTransitions := 0,
        surfaced := env.retryOutcome }
    | .error _ =>
      { refreshAttempts := 1, retryAttempts := 0, unauthTransitions := 1,
        surfaced := .authFailure msg }
  | r =>
    { refreshAttempts := 0, retryAttempts := 0, unauthTransitions := 0,
      surfaced := r }

/-- C7: per original request the policy attempts refresh at most once and
retries at most once; and when the original response is an authorization
failure and the refresh fails, the session transitions to unauthenticated
exactly once and the caller receives the original authorization failure,
not the refresh failure. -/
theorem refresh_retry_at_most_once (first : ApiResult) (env : RetryEnv) :
    (handleResponse first env).refreshAttempts ≤ 1 ∧
    (handleResponse first env).retryAttempts ≤ 1 ∧
    (∀ m e, first = .authFailure m → env.refreshOutcome = .error e →
      (handleResponse first env).unauthTransitions = 1 ∧
      (handleResponse first env).surfaced = .authFailure m) := by
  refine ⟨?_, ?_, ?_⟩
  · cases first <;> cases h : env.refreshOutcome <;>
      simp [handleResponse, h]
  · cases first <;> cases h : env.refreshOutcome <;>
      simp [handleResponse, h]
  · intro m e hf hr
    subst hf
    simp [handleResponse, hr]

/-- Witness for C7: the spec's scenario 4 — the original call fails with
an expired authorization, the refresh also fails; one transition to
unauthenticated, and the surfaced failure is the original one. -/
theorem refresh_retry_at_most_once_witness :
    (handleResponse (.authFailure "expired")
        { refreshOutcome := .error "refresh rejected",
          retryOutcome := .ok "unused" }).refreshAttempts ≤ 1 ∧
    (handleResponse (.authFailure "expired")
        { refreshOutcome := .error "refresh rejected",
          retryOutcome := .ok "unused" }).retryAttempts ≤ 1 ∧
    (handleResponse (.authFailure "expired")
        { refreshOutcome := .error "refresh rejected",
          retryOutcome := .ok "unused" }).unauthTransitions = 1 ∧
    (handleResponse (.authFailure "expired")
        { refreshOutcome := .error "refresh rejected",
          retryOutcome := .ok "unused" }).surfaced
      = .authFailure "expired" := by
  have h := refresh_retry_at_most_once (.authFailure "expired")
    { refreshOutcome := .error "refresh rejected", retryOutcome := .ok "unused" }
  obtain ⟨h1, h2, h3⟩ := h
  obtain ⟨h4, h5⟩ := h3 "expired" "refresh rejected" rfl rfl
  exact ⟨h1, h2, h4, h5⟩
